import Mathlib

/-!
Verification of the Binance Futures testnet trading CLI (`src/main.py`).

The embedding is shallow: the payload a call sends is a list of
field-name/value pairs in insertion order (Python dicts preserve insertion
order, and `dict.update` appends), the remote order-placement RPC is a
function parameter, and `main` returns the process exit code together with
the observable trace (log lines, stdout lines, payloads sent to the remote
endpoint).  Python floats carry no arithmetic here beyond the positivity
check at CLI parse time, so they are modelled as rationals.
-/

namespace BinanceBot

/-- Values that appear in an order payload or a remote response:
strings and numbers (Python floats, modelled as rationals). -/
inductive Value where
  | str : String → Value
  | num : ℚ → Value
deriving DecidableEq

/-- A payload or response: field-name/value pairs in insertion order,
modelling a Python dict built by literal construction plus `update`. -/
abbrev Fields := List (String × Value)

/-- Log severity levels used by the program (`logging.INFO` / `logging.ERROR`). -/
inductive Level where
  | info
  | error
deriving DecidableEq

/-- Quotes a string as JSON does (the program only ever dumps plain
identifiers, so no escaping arises). -/
def jsonQuote (s : String) : String := "\"" ++ s ++ "\""

/-- Rendering of a single value inside `json.dumps` output. -/
def valueJson : Value → String
  | .str s => jsonQuote s
  | .num q => toString q

/-- Compact `json.dumps` of a payload, as used in the log lines. -/
def jsonDumps (ps : Fields) : String :=
  "\x7b" ++ String.intercalate ", " (ps.map fun p => jsonQuote p.1 ++ ": " ++ valueJson p.2) ++ "\x7d"

/-- Indented `json.dumps(response, indent=2)`, as printed to stdout on success. -/
def jsonDumpsIndent (ps : Fields) : String :=
  "\x7b\n  " ++ String.intercalate ",\n  " (ps.map fun p => jsonQuote p.1 ++ ": " ++ valueJson p.2) ++ "\n\x7d"

/-- Rendering of a value under Python `%s` formatting. -/
def valueStr : Value → String
  | .str s => s
  | .num q => toString q

/-- Mirrors `response.get("orderId")` rendered via `%s` (absent keys print as None). -/
def respOrderId (resp : Fields) : String :=
  match resp.lookup "orderId" with
  | some v => valueStr v
  | none => "None"

/-- Python `str.upper()` on the ASCII strings this program handles:
uppercases each character. -/
def pyUpper (s : String) : String := String.mk (s.data.map Char.toUpper)

/-- The error raised by the remote collaborator
(`BinanceAPIException` / `BinanceOrderException`); opaque to this program,
only its string form is observed (logged verbatim). -/
structure ApiError where
  msg : String
deriving DecidableEq

/-- The remote order-placement RPC (`client.futures_create_order`):
takes the normalized payload, returns a response mapping or raises an API error. -/
abbrev Remote := Fields → Except ApiError Fields

/-- Constant `Client.ORDER_TYPE_LIMIT` of the `python-binance` library
(the spec's CLI table fixes `--type` to MARKET|LIMIT). -/
def ORDER_TYPE_LIMIT : String := "LIMIT"

/-- Constant `Client.ORDER_TYPE_MARKET` of the `python-binance` library. -/
def ORDER_TYPE_MARKET : String := "MARKET"

/-- Constant `TESTNET_BASE_URL` of `src/main.py`. -/
def TESTNET_BASE_URL : String := "https://testnet.binancefuture.com"

/-- The validation and payload-construction step of `place_order`
(src/main.py lines 110-125): builds the `order_params` dict, or raises
`ValueError` (returned here as `.error` carrying the message). -/
def buildOrderParams (symbol side order_type : String) (quantity : ℚ)
    (price : Option ℚ) (time_in_force : String) : Except String Fields :=
  let order_params : Fields :=
    [("symbol", .str (pyUpper symbol)),
     ("side", .str (pyUpper side)),
     ("type", .str (pyUpper order_type)),
     ("quantity", .num quantity)]
  if pyUpper order_type = ORDER_TYPE_LIMIT then
    match price with
    | none => .error "Limit orders require `price`."
    | some p => .ok (order_params ++ [("price", .num p), ("timeInForce", .str time_in_force)])
  else if pyUpper order_type = ORDER_TYPE_MARKET then
    .ok order_params
  else
    .error ("Unsupported order type: " ++ order_type)

deriving instance DecidableEq for Except

/-- Errors that can escape `place_order`: a `ValueError` (invalid parameters)
or a propagated remote API error. -/
inductive PlaceError where
  | valueError : String → PlaceError
  | apiError : ApiError → PlaceError
deriving DecidableEq

/-- Result of one `place_order` call: the returned response or raised error,
the log lines it emitted, and every payload it passed to the remote RPC
(in order, so `sent.length` counts the remote calls made). -/
structure CallResult where
  result : Except PlaceError Fields
  log : List (Level × String)
  sent : List Fields
deriving DecidableEq

/-- `BasicBot.place_order` (src/main.py lines 92-134): validates and builds
the payload, logs it, invokes the remote RPC once, logs the outcome, and
returns the response or propagates the error. -/
def place_order (remote : Remote) (symbol side order_type : String)
    (quantity : ℚ) (price : Option ℚ := none)
    (time_in_force : String := "GTC") : CallResult :=
  match buildOrderParams symbol side order_type quantity price time_in_force with
  | .error msg => ⟨.error (.valueError msg), [], []⟩
  | .ok order_params =>
    let placing := (Level.info, "Placing order: " ++ jsonDumps order_params)
    match remote order_params with
    | .ok response =>
      ⟨.ok response,
       [placing,
        (Level.info, "Order params: " ++ jsonDumps order_params),
        (Level.info, "Order response: " ++ jsonDumps response)],
       [order_params]⟩
    | .error exc =>
      ⟨.error (.apiError exc),
       [placing, (Level.error, "Binance API error: " ++ exc.msg)],
       [order_params]⟩

/-- Parsed CLI arguments (the fields of the `argparse.Namespace` produced by
`parse_cli_arguments`). Flags `--api-key`/`--api-secret` are optional and
default to `None`. -/
structure Args where
  api_key : Option String
  api_secret : Option String
  symbol : String
  side : String
  order_type : String
  quantity : ℚ
  price : Option ℚ
  time_in_force : String
deriving DecidableEq

/-- Guarantees `parse_cli_arguments` enforces via argparse `choices`,
`required` and the `_positive_float` converter. -/
def cliWellFormed (a : Args) : Prop :=
  (a.side = "BUY" ∨ a.side = "SELL") ∧
  (a.order_type = "MARKET" ∨ a.order_type = "LIMIT") ∧
  0 < a.quantity ∧
  (∀ p, a.price = some p → 0 < p) ∧
  (a.time_in_force = "GTC" ∨ a.time_in_force = "IOC" ∨ a.time_in_force = "FOK")

/-- The environment variables consulted by `main`
(`os.getenv` returns `None` when unset). -/
structure Env where
  BINANCE_API_KEY : Option String
  BINANCE_API_SECRET : Option String
deriving DecidableEq

/-- Python truthiness of an optional string: `None` and `""` are falsy. -/
def truthy : Option String → Bool
  | none => false
  | some s => s != ""

/-- Python `a or b` on optional strings, as used for credential fallback. -/
def pyOr (a b : Option String) : Option String :=
  if truthy a then a else b

/-- The API key `main` resolves: `args.api_key or os.getenv("BINANCE_API_KEY")`. -/
def resolvedKey (a : Args) (env : Env) : Option String :=
  pyOr a.api_key env.BINANCE_API_KEY

/-- The API secret `main` resolves: `args.api_secret or os.getenv("BINANCE_API_SECRET")`. -/
def resolvedSecret (a : Args) (env : Env) : Option String :=
  pyOr a.api_secret env.BINANCE_API_SECRET

/-- Negation of `if not api_key or not api_secret` in `main`: both resolved
credentials are truthy. -/
def credentialsOk (a : Args) (env : Env) : Bool :=
  truthy (resolvedKey a env) && truthy (resolvedSecret a env)

/-- The error message `main` logs when credentials are unresolved. -/
def credErrMsg : String :=
  "API credentials must be provided via flags or environment variables."

/-- Observable outcome of one process invocation: exit code (a normal return
from Python `main` exits with 0), log lines in order, stdout lines, and the
payloads sent to the remote RPC. -/
structure MainResult where
  exitCode : Nat
  log : List (Level × String)
  stdout : List String
  sent : List Fields
deriving DecidableEq

/-- `main` (src/main.py lines 195-225), after CLI parsing: resolves
credentials (exit 1 when either is missing), constructs the bot (which logs
client initialization), places the order, and maps the outcome to exit code
0 (success), 2 (`ValueError`) or 3 (API error). -/
def main (a : Args) (env : Env) (remote : Remote) : MainResult :=
  if ¬ truthy (resolvedKey a env) ∨ ¬ truthy (resolvedSecret a env) then
    ⟨1, [(Level.error, credErrMsg)], [], []⟩
  else
    let initLog := (Level.info, "Client initialized for Binance Futures testnet @ " ++ TESTNET_BASE_URL)
    let r := place_order remote a.symbol a.side a.order_type a.quantity a.price a.time_in_force
    match r.result with
    | .ok response =>
      ⟨0,
       initLog :: r.log ++ [(Level.info, "Order successfully executed. ID: " ++ respOrderId response)],
       [jsonDumpsIndent response],
       r.sent⟩
    | .error (.valueError msg) =>
      ⟨2, initLog :: r.log ++ [(Level.error, msg)], [], r.sent⟩
    | .error (.apiError _) =>
      ⟨3, initLog :: r.log, [], r.sent⟩

/-- Fixed environment with both credential variables unset. -/
def sampleEnv : Env := ⟨none, none⟩

/-- A remote endpoint that rejects every order with an authentication error. -/
def remoteRejectAll : Remote :=
  fun _ => .error ⟨"APIError(code=-2014): API-key format invalid."⟩

/-- A remote endpoint that accepts every order. -/
def remoteAcceptAll : Remote :=
  fun _ => .ok [("orderId", .num 12345), ("status", .str "NEW")]

/-- Parsed arguments of a LIMIT order without a price and without credential flags. -/
def limitNoPriceArgs : Args :=
  ⟨none, none, "ETHUSDT", "SELL", "LIMIT", 1/100, none, "GTC"⟩

/-- Parsed arguments of a valid LIMIT order with price 2000 and tif IOC. -/
def limitIocArgs : Args :=
  ⟨some "key", some "secret", "ETHUSDT", "SELL", "LIMIT", 1/100, some 2000, "IOC"⟩

/-- Parsed arguments of a valid MARKET order with credential flags. -/
def marketArgs : Args :=
  ⟨some "key", some "secret", "BTCUSDT", "BUY", "MARKET", 1/1000, none, "GTC"⟩

lemma pyUpper_LIMIT : pyUpper "LIMIT" = "LIMIT" := rfl

lemma pyUpper_MARKET : pyUpper "MARKET" = "MARKET" := rfl

lemma build_limit_none_of (symbol side order_type : String) (q : ℚ) (tif : String)
    (h : pyUpper order_type = ORDER_TYPE_LIMIT) :
    buildOrderParams symbol side order_type q none tif =
      .error "Limit orders require `price`." := by
  simp [buildOrderParams, h]

lemma build_limit_some_of (symbol side order_type : String) (q p : ℚ) (tif : String)
    (h : pyUpper order_type = ORDER_TYPE_LIMIT) :
    buildOrderParams symbol side order_type q (some p) tif =
      .ok [("symbol", .str (pyUpper symbol)), ("side", .str (pyUpper side)),
           ("type", .str (pyUpper order_type)), ("quantity", .num q),
           ("price", .num p), ("timeInForce", .str tif)] := by
  simp [buildOrderParams, h]

lemma build_market_of (symbol side order_type : String) (q : ℚ) (price : Option ℚ)
    (tif : String) (h : pyUpper order_type = ORDER_TYPE_MARKET) :
    buildOrderParams symbol side order_type q price tif =
      .ok [("symbol", .str (pyUpper symbol)), ("side", .str (pyUpper side)),
           ("type", .str (pyUpper order_type)), ("quantity", .num q)] := by
  simp [buildOrderParams, h, ORDER_TYPE_LIMIT, ORDER_TYPE_MARKET]

lemma buildOrderParams_limit_none (symbol side : String) (q : ℚ) (tif : String) :
    buildOrderParams symbol side "LIMIT" q none tif =
      .error "Limit orders require `price`." :=
  build_limit_none_of symbol side "LIMIT" q tif pyUpper_LIMIT

lemma buildOrderParams_limit_some (symbol side : String) (q p : ℚ) (tif : String) :
    buildOrderParams symbol side "LIMIT" q (some p) tif =
      .ok [("symbol", .str (pyUpper symbol)), ("side", .str (pyUpper side)),
           ("type", .str "LIMIT"), ("quantity", .num q),
           ("price", .num p), ("timeInForce", .str tif)] := by
  rw [build_limit_some_of symbol side "LIMIT" q p tif pyUpper_LIMIT, pyUpper_LIMIT]

lemma buildOrderParams_market (symbol side : String) (q : ℚ) (price : Option ℚ)
    (tif : String) :
    buildOrderParams symbol side "MARKET" q price tif =
      .ok [("symbol", .str (pyUpper symbol)), ("side", .str (pyUpper side)),
           ("type", .str "MARKET"), ("quantity", .num q)] := by
  rw [build_market_of symbol side "MARKET" q price tif pyUpper_MARKET, pyUpper_MARKET]

/-- C2 counterexample: on a LIMIT intent without a price the builder raises the
message `Limit orders require \x60price\x60.` (with backticks and a final
period), which is not the message `Limit orders require price` quoted by the
claim. -/
theorem limit_missing_price_message_cex :
    buildOrderParams "ETHUSDT" "SELL" "LIMIT" (1/100) none "GTC" =
      .error "Limit orders require `price`." ∧
    buildOrderParams "ETHUSDT" "SELL" "LIMIT" (1/100) none "GTC" ≠
      .error "Limit orders require price" := by
  constructor
  · exact buildOrderParams_limit_none "ETHUSDT" "SELL" (1/100) "GTC"
  · decide

/-- C2 (amended): for every LIMIT intent without a price, regardless of all
other fields, `place_order` fails with the ValueError message
`Limit orders require \x60price\x60.`, emits no log line and makes no remote
call. -/
theorem limit_missing_price_rejected (remote : Remote) (symbol side : String)
    (q : ℚ) (tif : String) :
    place_order remote symbol side "LIMIT" q none tif =
      ⟨.error (.valueError "Limit orders require `price`."), [], []⟩ := by
  unfold place_order
  rw [buildOrderParams_limit_none]

/-- C3: for every MARKET intent, whatever price and timeInForce are supplied,
the built payload is exactly the four fields symbol, side, type, quantity with
symbol, side and type uppercased; price and timeInForce never appear. -/
theorem market_payload (symbol side : String) (q : ℚ) (price : Option ℚ)
    (tif : String) :
    buildOrderParams symbol side "MARKET" q price tif =
      .ok [("symbol", .str (pyUpper symbol)), ("side", .str (pyUpper side)),
           ("type", .str "MARKET"), ("quantity", .num q)] :=
  buildOrderParams_market symbol side q price tif

/-- C4: for every LIMIT intent with a price, the built payload carries, after
the four common fields, the fields price and timeInForce; and `place_order`
defaults timeInForce to GTC when the argument is not supplied. -/
theorem limit_payload (remote : Remote) (symbol side : String) (q p : ℚ)
    (tif : String) :
    buildOrderParams symbol side "LIMIT" q (some p) tif =
      .ok [("symbol", .str (pyUpper symbol)), ("side", .str (pyUpper side)),
           ("type", .str "LIMIT"), ("quantity", .num q),
           ("price", .num p), ("timeInForce", .str tif)] ∧
    place_order remote symbol side "LIMIT" q (some p) =
      place_order remote symbol side "LIMIT" q (some p) "GTC" :=
  ⟨buildOrderParams_limit_some symbol side q p tif, rfl⟩

/-- C8: for every intent whose order type uppercases to neither MARKET nor
LIMIT, the builder fails with the message
`Unsupported order type: <value>` where `<value>` is the order type exactly as
supplied. -/
theorem unsupported_order_type (symbol side order_type : String) (q : ℚ)
    (price : Option ℚ) (tif : String)
    (h1 : pyUpper order_type ≠ ORDER_TYPE_LIMIT)
    (h2 : pyUpper order_type ≠ ORDER_TYPE_MARKET) :
    buildOrderParams symbol side order_type q price tif =
      .error ("Unsupported order type: " ++ order_type) := by
  simp [buildOrderParams, h1, h2]

/-- C8 witness: the order type STOP is neither MARKET nor LIMIT and is
rejected with the message naming it. -/
theorem unsupported_order_type_witness :
    pyUpper "STOP" ≠ ORDER_TYPE_LIMIT ∧ pyUpper "STOP" ≠ ORDER_TYPE_MARKET ∧
    buildOrderParams "BTCUSDT" "BUY" "STOP" 1 none "GTC" =
      .error ("Unsupported order type: " ++ "STOP") :=
  ⟨by decide, by decide,
   unsupported_order_type "BTCUSDT" "BUY" "STOP" 1 none "GTC" (by decide) (by decide)⟩

lemma credentialsOk_false_iff (a : Args) (env : Env) :
    credentialsOk a env = false ↔
      (¬ truthy (resolvedKey a env) ∨ ¬ truthy (resolvedSecret a env)) := by
  unfold credentialsOk
  cases truthy (resolvedKey a env) <;> cases truthy (resolvedSecret a env) <;> simp

lemma credentialsOk_true_iff (a : Args) (env : Env) :
    credentialsOk a env = true ↔
      (truthy (resolvedKey a env) ∧ truthy (resolvedSecret a env)) := by
  unfold credentialsOk
  cases truthy (resolvedKey a env) <;> cases truthy (resolvedSecret a env) <;> simp

/-- The client-initialization log line emitted by `BasicBot.__init__`. -/
def initMsg : String :=
  "Client initialized for Binance Futures testnet @ " ++ TESTNET_BASE_URL

lemma main_creds_bad (a : Args) (env : Env) (remote : Remote)
    (h : credentialsOk a env = false) :
    main a env remote = ⟨1, [(Level.error, credErrMsg)], [], []⟩ := by
  unfold main
  rw [if_pos ((credentialsOk_false_iff a env).mp h)]

lemma main_validation_error (a : Args) (env : Env) (remote : Remote) (msg : String)
    (h : credentialsOk a env = true)
    (hb : buildOrderParams a.symbol a.side a.order_type a.quantity a.price
        a.time_in_force = .error msg) :
    main a env remote =
      ⟨2, [(Level.info, initMsg), (Level.error, msg)], [], []⟩ := by
  have h2 := (credentialsOk_true_iff a env).mp h
  unfold main place_order
  rw [if_neg (by push_neg; exact h2)]
  simp only [hb, initMsg]
  rfl

lemma main_api_error (a : Args) (env : Env) (remote : Remote) (ps : Fields)
    (e : ApiError) (h : credentialsOk a env = true)
    (hb : buildOrderParams a.symbol a.side a.order_type a.quantity a.price
        a.time_in_force = .ok ps)
    (hr : remote ps = .error e) :
    main a env remote =
      ⟨3,
       [(Level.info, initMsg),
        (Level.info, "Placing order: " ++ jsonDumps ps),
        (Level.error, "Binance API error: " ++ e.msg)],
       [], [ps]⟩ := by
  have h2 := (credentialsOk_true_iff a env).mp h
  unfold main place_order
  rw [if_neg (by push_neg; exact h2)]
  simp only [hb, hr, initMsg]

lemma main_success (a : Args) (env : Env) (remote : Remote) (ps resp : Fields)
    (h : credentialsOk a env = true)
    (hb : buildOrderParams a.symbol a.side a.order_type a.quantity a.price
        a.time_in_force = .ok ps)
    (hr : remote ps = .ok resp) :
    main a env remote =
      ⟨0,
       [(Level.info, initMsg),
        (Level.info, "Placing order: " ++ jsonDumps ps),
        (Level.info, "Order params: " ++ jsonDumps ps),
        (Level.info, "Order response: " ++ jsonDumps resp),
        (Level.info, "Order successfully executed. ID: " ++ respOrderId resp)],
       [jsonDumpsIndent resp], [ps]⟩ := by
  have h2 := (credentialsOk_true_iff a env).mp h
  unfold main place_order
  rw [if_neg (by push_neg; exact h2)]
  simp only [hb, hr, initMsg]
  rfl

/-- C1: the exit code classifies the outcome exactly: 1 iff credentials are
unresolved; otherwise 2 iff the builder raises a validation error, 3 iff the
remote call raises an API error, and 0 iff the remote call succeeds. -/
theorem exit_code_classification (a : Args) (env : Env) (remote : Remote) :
    ((main a env remote).exitCode = 1 ↔ credentialsOk a env = false) ∧
    ((main a env remote).exitCode = 2 ↔ credentialsOk a env = true ∧
        ∃ msg, buildOrderParams a.symbol a.side a.order_type a.quantity a.price
          a.time_in_force = .error msg) ∧
    ((main a env remote).exitCode = 3 ↔ credentialsOk a env = true ∧
        ∃ ps e, buildOrderParams a.symbol a.side a.order_type a.quantity a.price
          a.time_in_force = .ok ps ∧ remote ps = .error e) ∧
    ((main a env remote).exitCode = 0 ↔ credentialsOk a env = true ∧
        ∃ ps resp, buildOrderParams a.symbol a.side a.order_type a.quantity a.price
          a.time_in_force = .ok ps ∧ remote ps = .ok resp) := by
  cases hc : credentialsOk a env with
  | false =>
    rw [main_creds_bad a env remote hc]
    simp [hc]
  | true =>
    cases hb : buildOrderParams a.symbol a.side a.order_type a.quantity a.price
        a.time_in_force with
    | error msg =>
      rw [main_validation_error a env remote msg hc hb]
      refine ⟨by simp [hc], by simp [hc, hb], by simp [hc, hb], by simp [hc, hb]⟩
    | ok ps =>
      cases hr : remote ps with
      | error e =>
        rw [main_api_error a env remote ps e hc hb hr]
        refine ⟨by simp [hc], by simp [hc, hb], by simp [hc, hb, hr], by simp [hc, hb, hr]⟩
      | ok resp =>
        rw [main_success a env remote ps resp hc hb hr]
        refine ⟨by simp [hc], by simp [hc, hb], by simp [hc, hb, hr], by simp [hc, hb, hr]⟩

/-- C5: when credentials are unresolved, the whole observable behavior of the
invocation is exit code 1 with the single credentials log line: no client
initialization, no validation logging and no remote call happen, whatever the
order parameters are. -/
theorem credential_gate (a : Args) (env : Env) (remote : Remote)
    (h : credentialsOk a env = false) :
    main a env remote = ⟨1, [(Level.error, credErrMsg)], [], []⟩ :=
  main_creds_bad a env remote h

/-- C5 witness: with no credential flags and an empty environment, a LIMIT
order that even lacks its price still exits with code 1, no log beyond the
credentials error and no remote call. -/
theorem credential_gate_witness :
    credentialsOk limitNoPriceArgs sampleEnv = false ∧
    main limitNoPriceArgs sampleEnv remoteRejectAll =
      ⟨1, [(Level.error, credErrMsg)], [], []⟩ :=
  ⟨by decide, credential_gate limitNoPriceArgs sampleEnv remoteRejectAll (by decide)⟩

/-- C6: one invocation sends at most one payload to the remote endpoint, and
when the invocation ends with the remote-error exit code the failed call was
made exactly once (never retried). -/
theorem at_most_one_remote_call (a : Args) (env : Env) (remote : Remote) :
    (main a env remote).sent.length ≤ 1 ∧
    ((main a env remote).exitCode = 3 → (main a env remote).sent.length = 1) := by
  cases hc : credentialsOk a env with
  | false => rw [main_creds_bad a env remote hc]; exact ⟨by simp, by simp⟩
  | true =>
    cases hb : buildOrderParams a.symbol a.side a.order_type a.quantity a.price
        a.time_in_force with
    | error msg =>
      rw [main_validation_error a env remote msg hc hb]
      exact ⟨by simp, by simp⟩
    | ok ps =>
      cases hr : remote ps with
      | error e =>
        rw [main_api_error a env remote ps e hc hb hr]
        exact ⟨by simp, by simp⟩
      | ok resp =>
        rw [main_success a env remote ps resp hc hb hr]
        exact ⟨by simp, by simp⟩

/-- C6 witness: on a valid LIMIT order whose remote call fails, exactly one
payload was sent. -/
theorem at_most_one_remote_call_witness :
    (main limitIocArgs sampleEnv remoteRejectAll).sent.length ≤ 1 ∧
    (main limitIocArgs sampleEnv remoteRejectAll).sent.length = 1 :=
  ⟨(at_most_one_remote_call limitIocArgs sampleEnv remoteRejectAll).1,
   (at_most_one_remote_call limitIocArgs sampleEnv remoteRejectAll).2 (by decide)⟩

/-- C7: when the remote call for a validated order raises an API error with
message m, the process exits with code 3, an error-severity log line carries m
verbatim, and stdout stays empty. -/
theorem api_error_exit (a : Args) (env : Env) (remote : Remote) (ps : Fields)
    (m : String) (hc : credentialsOk a env = true)
    (hb : buildOrderParams a.symbol a.side a.order_type a.quantity a.price
        a.time_in_force = .ok ps)
    (hr : remote ps = .error ⟨m⟩) :
    (main a env remote).exitCode = 3 ∧
    (Level.error, "Binance API error: " ++ m) ∈ (main a env remote).log ∧
    (main a env remote).stdout = [] := by
  rw [main_api_error a env remote ps ⟨m⟩ hc hb hr]
  exact ⟨rfl, by simp, rfl⟩

/-- C7 witness: a valid LIMIT order with price 2000 and tif IOC against a
remote endpoint that raises an authentication error exits with code 3, logs
the remote message verbatim at error severity, and prints nothing. -/
theorem api_error_exit_witness :
    credentialsOk limitIocArgs sampleEnv = true ∧
    (main limitIocArgs sampleEnv remoteRejectAll).exitCode = 3 ∧
    (Level.error,
      "Binance API error: " ++ "APIError(code=-2014): API-key format invalid.") ∈
      (main limitIocArgs sampleEnv remoteRejectAll).log ∧
    (main limitIocArgs sampleEnv remoteRejectAll).stdout = [] :=
  ⟨by decide,
   api_error_exit limitIocArgs sampleEnv remoteRejectAll
     [("symbol", .str "ETHUSDT"), ("side", .str "SELL"), ("type", .str "LIMIT"),
      ("quantity", .num (1/100)), ("price", .num 2000), ("timeInForce", .str "IOC")]
     "APIError(code=-2014): API-key format invalid." (by decide) rfl rfl⟩

/-- C9: an empty-string credential flag falls back to the environment
variable, a non-empty flag value wins over the environment, and the process
exits with code 1 exactly when either resolved credential is absent or
empty. -/
theorem credential_resolution (a : Args) (env : Env) (remote : Remote) :
    (a.api_key = some "" → resolvedKey a env = env.BINANCE_API_KEY) ∧
    (a.api_secret = some "" → resolvedSecret a env = env.BINANCE_API_SECRET) ∧
    (∀ s, a.api_key = some s → s ≠ "" → resolvedKey a env = some s) ∧
    (∀ s, a.api_secret = some s → s ≠ "" → resolvedSecret a env = some s) ∧
    ((main a env remote).exitCode = 1 ↔
      ¬ truthy (resolvedKey a env) ∨ ¬ truthy (resolvedSecret a env)) := by
  refine ⟨?_, ?_, ?_, ?_, ?_⟩
  · intro hk; simp [resolvedKey, pyOr, truthy, hk]
  · intro hs; simp [resolvedSecret, pyOr, truthy, hs]
  · intro s hk hs; simp [resolvedKey, pyOr, truthy, hk, hs]
  · intro s hk hs; simp [resolvedSecret, pyOr, truthy, hk, hs]
  · rw [(exit_code_classification a env remote).1, credentialsOk_false_iff]

/-- C9 witness: an empty --api-key flag falls back to the environment value, a
non-empty flag wins over the environment, and an invocation with an empty
resolved secret exits with code 1. -/
theorem credential_resolution_witness :
    resolvedKey ⟨some "", some "sec", "BTCUSDT", "BUY", "MARKET", 1, none, "GTC"⟩
        ⟨some "envkey", none⟩ = some "envkey" ∧
    resolvedKey ⟨some "flagkey", some "sec", "BTCUSDT", "BUY", "MARKET", 1, none, "GTC"⟩
        ⟨some "envkey", none⟩ = some "flagkey" ∧
    (main ⟨some "", some "sec", "BTCUSDT", "BUY", "MARKET", 1, none, "GTC"⟩
        ⟨none, none⟩ remoteAcceptAll).exitCode = 1 :=
  ⟨(credential_resolution _ ⟨some "envkey", none⟩ remoteAcceptAll).1 rfl,
   (credential_resolution _ ⟨some "envkey", none⟩ remoteAcceptAll).2.2.1
     "flagkey" rfl (by decide),
   ((credential_resolution _ ⟨none, none⟩ remoteAcceptAll).2.2.2.2).mpr
     (Or.inl (by decide))⟩

/-- C10 counterexample: the order types stop and STOP uppercase to the same
string, yet the builder's outcomes differ, because the unsupported-order-type
message embeds the order type exactly as supplied. -/
theorem case_insensitivity_cex :
    pyUpper "stop" = pyUpper "STOP" ∧
    buildOrderParams "BTCUSDT" "BUY" "stop" 1 none "GTC" ≠
      buildOrderParams "BTCUSDT" "BUY" "STOP" 1 none "GTC" :=
  ⟨by decide, by decide⟩

/-- C10 (amended): `place_order`'s builder uppercases symbol, side and order
type before dispatch and payload construction, so inputs equal up to case give
an identical payload whenever the order type is supported (MARKET or LIMIT),
the same success/failure classification in every case, and the emitted
symbol/side/type fields are always the uppercased inputs; only the
unsupported-order-type error message keeps the order type as supplied. -/
theorem case_insensitivity_amended (s1 s2 d1 d2 t1 t2 : String) (q : ℚ)
    (price : Option ℚ) (tif : String)
    (hs : pyUpper s1 = pyUpper s2) (hd : pyUpper d1 = pyUpper d2)
    (ht : pyUpper t1 = pyUpper t2) :
    ((pyUpper t1 = ORDER_TYPE_LIMIT ∨ pyUpper t1 = ORDER_TYPE_MARKET) →
        buildOrderParams s1 d1 t1 q price tif = buildOrderParams s2 d2 t2 q price tif) ∧
    (∀ ps, buildOrderParams s1 d1 t1 q price tif = .ok ps →
        buildOrderParams s2 d2 t2 q price tif = .ok ps ∧
        ps.lookup "symbol" = some (.str (pyUpper s1)) ∧
        ps.lookup "side" = some (.str (pyUpper d1)) ∧
        ps.lookup "type" = some (.str (pyUpper t1))) ∧
    ((∃ m, buildOrderParams s1 d1 t1 q price tif = .error m) ↔
        (∃ m, buildOrderParams s2 d2 t2 q price tif = .error m)) := by
  by_cases hL : pyUpper t1 = ORDER_TYPE_LIMIT
  · have hL2 : pyUpper t2 = ORDER_TYPE_LIMIT := ht ▸ hL
    cases price with
    | none =>
      rw [build_limit_none_of s1 d1 t1 q tif hL, build_limit_none_of s2 d2 t2 q tif hL2]
      exact ⟨fun _ => rfl, fun ps h => Except.noConfusion h, by simp⟩
    | some p =>
      rw [build_limit_some_of s1 d1 t1 q p tif hL, build_limit_some_of s2 d2 t2 q p tif hL2]
      refine ⟨fun _ => by rw [hs, hd, ht], ?_, by simp⟩
      intro ps h
      injection h with h2
      subst h2
      exact ⟨by rw [hs, hd, ht], rfl, rfl, rfl⟩
  · by_cases hM : pyUpper t1 = ORDER_TYPE_MARKET
    · have hM2 : pyUpper t2 = ORDER_TYPE_MARKET := ht ▸ hM
      rw [build_market_of s1 d1 t1 q price tif hM, build_market_of s2 d2 t2 q price tif hM2]
      refine ⟨fun _ => by rw [hs, hd, ht], ?_, by simp⟩
      intro ps h
      injection h with h2
      subst h2
      exact ⟨by rw [hs, hd, ht], rfl, rfl, rfl⟩
    · have hL2 : pyUpper t2 ≠ ORDER_TYPE_LIMIT := ht ▸ hL
      have hM2 : pyUpper t2 ≠ ORDER_TYPE_MARKET := ht ▸ hM
      rw [unsupported_order_type s1 d1 t1 q price tif hL hM,
          unsupported_order_type s2 d2 t2 q price tif hL2 hM2]
      refine ⟨?_, fun ps h => Except.noConfusion h, by simp⟩
      rintro (h | h)
      · exact absurd h hL
      · exact absurd h hM

/-- C10 witness: the inputs btcusdt/buy/limit and BTCUSDT/BUY/LIMIT are equal
up to case and the order type is supported, so the builder yields identical
payloads. -/
theorem case_insensitivity_amended_witness :
    buildOrderParams "btcusdt" "buy" "limit" 1 (some 2) "GTC" =
      buildOrderParams "BTCUSDT" "BUY" "LIMIT" 1 (some 2) "GTC" :=
  (case_insensitivity_amended "btcusdt" "BTCUSDT" "buy" "BUY" "limit" "LIMIT" 1
    (some 2) "GTC" (by decide) (by decide) (by decide)).1 (Or.inl (by decide))

end BinanceBot
